import Mathlib

/-
  Verification development for the video-editing backend.

  The export subsystem (exporter.py together with the export routes of
  routes.py) is embedded as explicit state passing over a per-job ledger
  state.  Decimal progress values are represented in hundredths, so the
  Python Decimal 10.00 is the natural number 1000.  Wall-clock time is a
  natural-number counter in the state: every database operation and every
  sleep advances it by one, which models the clock collaborator that
  supplies monotonically non-decreasing timestamps.
-/

namespace VideoEditor

/-- Status column of the export_jobs table. -/
inductive ExportStatus where
  | queued
  | running
  | succeeded
  | failed
  | canceled
deriving DecidableEq, Repr

/-- Event type column of the export_job_events table. -/
inductive EventType where
  | created
  | queued
  | started
  | progress
  | completed
  | failed
  | canceled
deriving DecidableEq, Repr

/-- Whether an export status is terminal. -/
def ExportStatus.isTerminal : ExportStatus → Bool
  | .succeeded => true
  | .failed => true
  | .canceled => true
  | _ => false

/-- One row of the export_jobs table, for a fixed job id. -/
structure ExportJobRow where
  status : ExportStatus
  progress : Nat
  output_uri : Option String
  error_message : Option String
  started_at : Option Nat
  finished_at : Option Nat
deriving DecidableEq, Repr

/-- One row of the export_job_events table (id is the sequence column,
created_at the insertion timestamp). -/
structure ExportJobEventRow where
  id : Nat
  event_type : EventType
  message : String
  progress : Option Nat
  created_at : Nat
deriving DecidableEq, Repr

/-- The ledger slice for a single export job: its row, its events in
insertion order, the next event sequence value and the clock. -/
structure ExportState where
  jobId : String
  job : ExportJobRow
  events : List ExportJobEventRow
  nextEventId : Nat
  clock : Nat
deriving DecidableEq, Repr

/-- The keyword arguments of the private update helper in exporter.py;
a field holding none is omitted from the generated UPDATE statement. -/
structure JobPatch where
  status : Option ExportStatus := none
  progress : Option Nat := none
  output_uri : Option String := none
  error_message : Option String := none
  started_at : Option Nat := none
  finished_at : Option Nat := none
deriving DecidableEq, Repr

/-- The update helper returns without touching the database when every
field is omitted. -/
def JobPatch.isEmpty (p : JobPatch) : Bool :=
  p.status.isNone && p.progress.isNone && p.output_uri.isNone &&
    p.error_message.isNone && p.started_at.isNone && p.finished_at.isNone

/-- A present optional column value overwrites, an absent one keeps the
stored value; since absence and null coincide in the payload, an update
can never write null over a stored value. -/
def setOpt {α : Type} (new : Option α) (old : Option α) : Option α :=
  match new with
  | some v => some v
  | none => old

/-- Field-wise effect of the UPDATE statement built by the update helper
in exporter.py. -/
def applyJobPatch (j : ExportJobRow) (p : JobPatch) : ExportJobRow where
  status := p.status.getD j.status
  progress := p.progress.getD j.progress
  output_uri := setOpt p.output_uri j.output_uri
  error_message := setOpt p.error_message j.error_message
  started_at := setOpt p.started_at j.started_at
  finished_at := setOpt p.finished_at j.finished_at

/-- Embedding of the update helper of exporter.py: no operation when all
fields are omitted, otherwise one transaction updating the row. -/
def update_job (s : ExportState) (p : JobPatch) : ExportState :=
  if p.isEmpty then s
  else { s with job := applyJobPatch s.job p, clock := s.clock + 1 }

/-- Embedding of the event insert helper of exporter.py: one transaction
appending a row whose id comes from the sequence and whose created_at is
the current clock. -/
def insert_event (s : ExportState) (ty : EventType) (msg : String)
    (prog : Option Nat) : ExportState :=
  { s with
    events := s.events ++ [⟨s.nextEventId, ty, msg, prog, s.clock⟩]
    nextEventId := s.nextEventId + 1
    clock := s.clock + 1 }

/-- An asyncio sleep only lets time pass. -/
def sleepTick (s : ExportState) : ExportState :=
  { s with clock := s.clock + 1 }

/-- Renders a progress value held in hundredths the way the Python
Decimal prints, with two decimal places. -/
def decimal2 (p : Nat) : String :=
  let frac := p % 100
  toString (p / 100) ++ "." ++
    (if frac < 10 then "0" ++ toString frac else toString frac)

/-- The fixed progress schedule of the stub worker, in hundredths. -/
def exportPcts : List Nat := [1000, 2500, 5000, 7500, 10000]

/-- One iteration of the progress loop of run_export_job_stub: sleep,
update the job row progress, append a progress event with the same
value. -/
def progressStep (s : ExportState) (pct : Nat) : ExportState :=
  let s := sleepTick s
  let s := update_job s { progress := some pct }
  insert_event s .progress ("Progress " ++ decimal2 pct ++ "%") (some pct)

/-- First phase of run_export_job_stub: set the row to queued at
progress 0 and append the queued event. -/
def phaseQueued (s : ExportState) : ExportState :=
  let s := update_job s { status := some .queued, progress := some 0 }
  insert_event s .queued "Export queued." (some 0)

/-- Second phase: sleep, move the row to running with started_at taken
from the clock value captured at entry, append the started event. -/
def phaseStarted (now : Nat) (s : ExportState) : ExportState :=
  let s := sleepTick s
  let s := update_job s
    { status := some .running, progress := some 0, started_at := some now }
  insert_event s .started "Export started." (some 0)

/-- Final phase: one update setting succeeded, progress 100.00, the
output uri derived from the job id and finished_at together, then the
completed event. -/
def phaseFinished (s : ExportState) : ExportState :=
  let finished := s.clock
  let uri := "exports/" ++ s.jobId ++ ".mp4"
  let s := update_job s
    { status := some .succeeded, progress := some 10000,
      output_uri := some uri, finished_at := some finished }
  insert_event s .completed "Export completed." (some 10000)

/-- Embedding of run_export_job_stub of exporter.py.  The clock value
captured before any write supplies started_at, exactly as the source
captures now before its first update. -/
def run_export_job_stub (s : ExportState) : ExportState :=
  let now := s.clock
  phaseFinished (exportPcts.foldl progressStep (phaseStarted now (phaseQueued s)))

/-- The states just before each progress-loop iteration (and after the
last), obtained by scanning the loop body over the schedule. -/
def exportLoopStates (s : ExportState) : List ExportState :=
  List.scanl progressStep (phaseStarted s.clock (phaseQueued s)) exportPcts

/-- Embedding of the export-job creation route of routes.py: insert the
job row with status queued and progress 0, then insert the created
event, starting from an empty per-job ledger at clock c0. -/
def create_export_job (jid : String) (c0 : Nat) : ExportState :=
  let job : ExportJobRow := ⟨.queued, 0, none, none, none, none⟩
  let s : ExportState := ⟨jid, job, [], 1, c0 + 1⟩
  insert_event s .created "Export job created." (some 0)

/-- Creation followed by the single background worker run dispatched for
it: everything that ever touches one export job in the source. -/
def fullExportRun (jid : String) (c0 : Nat) : ExportState :=
  run_export_job_stub (create_export_job jid c0)

/-- The ORDER BY key of the events listing route: created_at ascending,
id ascending as the tie break. -/
def eventLe (a b : ExportJobEventRow) : Prop :=
  a.created_at < b.created_at ∨ (a.created_at = b.created_at ∧ a.id ≤ b.id)

instance : DecidableRel eventLe := fun a b => by
  unfold eventLe; exact inferInstance

instance : IsTotal ExportJobEventRow eventLe :=
  ⟨by intro a b; unfold eventLe; omega⟩

instance : IsTrans ExportJobEventRow eventLe :=
  ⟨by intro a b c; unfold eventLe; omega⟩

/-- Embedding of the events listing route of routes.py: the events of a
job ordered by created_at then id. -/
def list_export_job_events (s : ExportState) : List ExportJobEventRow :=
  List.insertionSort eventLe s.events

/-- Checks that a list of event types is a subsequence of the pattern
created, queued, started, progress repeated, one terminal event, with
every stage optional. -/
def lifecycleOk (l : List EventType) : Bool :=
  let l := match l with
    | .created :: rest => rest
    | other => other
  let l := match l with
    | .queued :: rest => rest
    | other => other
  let l := match l with
    | .started :: rest => rest
    | other => other
  let l := l.dropWhile (fun t => t == .progress)
  match l with
  | [] => true
  | [.completed] => true
  | [.failed] => true
  | [.canceled] => true
  | _ => false

/-- The state just before progress-loop iteration i of the worker run
started from s (and, at index 5, the state after the last iteration). -/
def loopState (s : ExportState) (i : Nat) : ExportState :=
  (exportLoopStates s).getD i s

/- ==================== Timeline store (routes.py) ==================== -/

/-- Error outcomes of the CRUD routes relevant here. -/
inductive ApiError where
  | notFound
deriving DecidableEq, Repr

/-- Track type enumeration. -/
inductive TrackType where
  | video
  | audio
  | overlay
deriving DecidableEq, Repr

/-- Clip type enumeration. -/
inductive ClipType where
  | media
  | title
  | color
  | generator
deriving DecidableEq, Repr

/-- Trim kind enumeration. -/
inductive TrimKind where
  | kindIn
  | kindOut
  | kindBoth
deriving DecidableEq, Repr

/-- Media kind enumeration. -/
inductive MediaKind where
  | video
  | audio
  | image
deriving DecidableEq, Repr

/-- One row of the projects table. -/
structure ProjectRow where
  id : Nat
  name : String
  description : Option String
  width : Nat
  height : Nat
  fps : Nat
  duration_ms : Nat
  created_at : Nat
  updated_at : Nat
deriving DecidableEq, Repr

/-- The ProjectUpdate payload; none means the field is absent. -/
structure ProjectPatch where
  name : Option String := none
  description : Option String := none
  width : Option Nat := none
  height : Option Nat := none
  fps : Option Nat := none
  duration_ms : Option Nat := none
deriving DecidableEq, Repr

/-- One row of the timeline_tracks table. -/
structure TrackRow where
  id : Nat
  project_id : Nat
  track_type : TrackType
  name : String
  sort_order : Int
  muted : Bool
  locked : Bool
  created_at : Nat
deriving DecidableEq, Repr

/-- The TimelineTrackUpdate payload; none means the field is absent. -/
structure TrackPatch where
  name : Option String := none
  sort_order : Option Int := none
  muted : Option Bool := none
  locked : Option Bool := none
deriving DecidableEq, Repr

/-- One row of the timeline_clips table.  Decimal columns are scaled to
naturals and the transform json payload is kept opaque as a string. -/
structure ClipRow where
  id : Nat
  project_id : Nat
  track_id : Nat
  media_asset_id : Option Nat
  clip_type : ClipType
  name : Option String
  start_ms : Nat
  end_ms : Nat
  in_ms : Nat
  out_ms : Nat
  speed : Nat
  opacity : Nat
  volume : Nat
  transform : String
  created_at : Nat
deriving DecidableEq, Repr

/-- The TimelineClipUpdate payload; none means the field is absent. -/
structure ClipPatch where
  track_id : Option Nat := none
  media_asset_id : Option Nat := none
  name : Option String := none
  start_ms : Option Nat := none
  end_ms : Option Nat := none
  in_ms : Option Nat := none
  out_ms : Option Nat := none
  speed : Option Nat := none
  opacity : Option Nat := none
  volume : Option Nat := none
  transform : Option String := none
deriving DecidableEq, Repr

/-- One row of the clip_trims table. -/
structure TrimRow where
  id : Nat
  clip_id : Nat
  kind : TrimKind
  trim_in_ms : Option Nat
  trim_out_ms : Option Nat
  created_at : Nat
deriving DecidableEq, Repr

/-- One row of the transitions table; params json kept opaque. -/
structure TransitionRow where
  id : Nat
  project_id : Nat
  track_id : Nat
  from_clip_id : Nat
  to_clip_id : Nat
  transition_type : String
  duration_ms : Nat
  easing : String
  params : String
  created_at : Nat
deriving DecidableEq, Repr

/-- The TransitionUpdate payload; none means the field is absent. -/
structure TransitionPatch where
  transition_type : Option String := none
  duration_ms : Option Nat := none
  easing : Option String := none
  params : Option String := none
deriving DecidableEq, Repr

/-- One row of the media_assets table, restricted to the columns the
claims mention. -/
structure MediaAssetRow where
  id : Nat
  project_id : Nat
  kind : MediaKind
  source_uri : String
  created_at : Nat
deriving DecidableEq, Repr

/-- One row of the export_jobs table as seen from the ownership graph. -/
structure ExportJobRef where
  id : Nat
  project_id : Nat
deriving DecidableEq, Repr

/-- One row of the export_job_events table as seen from the ownership
graph. -/
structure ExportJobEventRef where
  id : Nat
  export_job_id : Nat
deriving DecidableEq, Repr

/-- The relational store of the timeline subsystem. -/
structure Database where
  projects : List ProjectRow
  media_assets : List MediaAssetRow
  tracks : List TrackRow
  clips : List ClipRow
  trims : List TrimRow
  transitions : List TransitionRow
  export_jobs : List ExportJobRef
  export_job_events : List ExportJobEventRef
deriving DecidableEq, Repr

def ProjectPatch.isEmpty (p : ProjectPatch) : Bool :=
  p.name.isNone && p.description.isNone && p.width.isNone && p.height.isNone &&
    p.fps.isNone && p.duration_ms.isNone

def TrackPatch.isEmpty (p : TrackPatch) : Bool :=
  p.name.isNone && p.sort_order.isNone && p.muted.isNone && p.locked.isNone

def ClipPatch.isEmpty (p : ClipPatch) : Bool :=
  p.track_id.isNone && p.media_asset_id.isNone && p.name.isNone &&
    p.start_ms.isNone && p.end_ms.isNone && p.in_ms.isNone && p.out_ms.isNone &&
    p.speed.isNone && p.opacity.isNone && p.volume.isNone && p.transform.isNone

def TransitionPatch.isEmpty (p : TransitionPatch) : Bool :=
  p.transition_type.isNone && p.duration_ms.isNone && p.easing.isNone &&
    p.params.isNone

/-- The empty ProjectUpdate payload. -/
def emptyProjectPatch : ProjectPatch := {}

/-- The empty TimelineTrackUpdate payload. -/
def emptyTrackPatch : TrackPatch := {}

/-- The empty TimelineClipUpdate payload. -/
def emptyClipPatch : ClipPatch := {}

/-- The empty TransitionUpdate payload. -/
def emptyTransitionPatch : TransitionPatch := {}

/-- Field-wise effect of the UPDATE statement built from the non-null
fields of a ProjectUpdate payload. -/
def applyProjectPatch (t : ProjectRow) (p : ProjectPatch) : ProjectRow :=
  { t with
    name := p.name.getD t.name
    description := setOpt p.description t.description
    width := p.width.getD t.width
    height := p.height.getD t.height
    fps := p.fps.getD t.fps
    duration_ms := p.duration_ms.getD t.duration_ms }

/-- Field-wise effect of the UPDATE statement built from the non-null
fields of a TimelineTrackUpdate payload. -/
def applyTrackPatch (t : TrackRow) (p : TrackPatch) : TrackRow :=
  { t with
    name := p.name.getD t.name
    sort_order := p.sort_order.getD t.sort_order
    muted := p.muted.getD t.muted
    locked := p.locked.getD t.locked }

/-- Field-wise effect of the UPDATE statement built from the non-null
fields of a TimelineClipUpdate payload. -/
def applyClipPatch (t : ClipRow) (p : ClipPatch) : ClipRow :=
  { t with
    track_id := p.track_id.getD t.track_id
    media_asset_id := setOpt p.media_asset_id t.media_asset_id
    name := setOpt p.name t.name
    start_ms := p.start_ms.getD t.start_ms
    end_ms := p.end_ms.getD t.end_ms
    in_ms := p.in_ms.getD t.in_ms
    out_ms := p.out_ms.getD t.out_ms
    speed := p.speed.getD t.speed
    opacity := p.opacity.getD t.opacity
    volume := p.volume.getD t.volume
    transform := p.transform.getD t.transform }

/-- Field-wise effect of the UPDATE statement built from the non-null
fields of a TransitionUpdate payload. -/
def applyTransitionPatch (t : TransitionRow) (p : TransitionPatch) : TransitionRow :=
  { t with
    transition_type := p.transition_type.getD t.transition_type
    duration_ms := p.duration_ms.getD t.duration_ms
    easing := p.easing.getD t.easing
    params := p.params.getD t.params }

/-- Embedding of the project PATCH route: with an empty payload it only
reads the row back; otherwise it updates exactly the present fields of
the row selected by id, returning 404 when the id is absent. -/
def update_project (store : List ProjectRow) (id : Nat) (p : ProjectPatch) :
    Except ApiError (List ProjectRow × ProjectRow) :=
  if p.isEmpty then
    match store.find? (fun u => u.id == id) with
    | some t => .ok (store, t)
    | none => .error .notFound
  else
    match store.find? (fun u => u.id == id) with
    | some t =>
      .ok (store.map (fun u => if u.id == id then applyProjectPatch u p else u),
        applyProjectPatch t p)
    | none => .error .notFound

/-- Embedding of the track PATCH route, same shape as the project one. -/
def update_track (store : List TrackRow) (id : Nat) (p : TrackPatch) :
    Except ApiError (List TrackRow × TrackRow) :=
  if p.isEmpty then
    match store.find? (fun u => u.id == id) with
    | some t => .ok (store, t)
    | none => .error .notFound
  else
    match store.find? (fun u => u.id == id) with
    | some t =>
      .ok (store.map (fun u => if u.id == id then applyTrackPatch u p else u),
        applyTrackPatch t p)
    | none => .error .notFound

/-- Embedding of the clip PATCH route, same shape as the project one. -/
def update_clip (store : List ClipRow) (id : Nat) (p : ClipPatch) :
    Except ApiError (List ClipRow × ClipRow) :=
  if p.isEmpty then
    match store.find? (fun u => u.id == id) with
    | some t => .ok (store, t)
    | none => .error .notFound
  else
    match store.find? (fun u => u.id == id) with
    | some t =>
      .ok (store.map (fun u => if u.id == id then applyClipPatch u p else u),
        applyClipPatch t p)
    | none => .error .notFound

/-- Embedding of the transition PATCH route, same shape as the project
one. -/
def update_transition (store : List TransitionRow) (id : Nat) (p : TransitionPatch) :
    Except ApiError (List TransitionRow × TransitionRow) :=
  if p.isEmpty then
    match store.find? (fun u => u.id == id) with
    | some t => .ok (store, t)
    | none => .error .notFound
  else
    match store.find? (fun u => u.id == id) with
    | some t =>
      .ok (store.map (fun u => if u.id == id then applyTransitionPatch u p else u),
        applyTransitionPatch t p)
    | none => .error .notFound

/-- Modelled from the spec: the DELETE clip route only issues a
single-row DELETE and reports 404 on rowcount 0; the cascade to trims
and to transitions having the clip as either endpoint lives in the
relational schema (DDL machinery is outside src), specified by the
ownership graph and the dangling-reference rule of the data model
section. -/
def delete_clip (db : Database) (cid : Nat) : Except ApiError Database :=
  if (db.clips.find? (fun c => c.id == cid)).isNone then .error .notFound
  else
    .ok { db with
      clips := db.clips.filter (fun c => !(c.id == cid))
      trims := db.trims.filter (fun r => !(r.clip_id == cid))
      transitions := db.transitions.filter
        (fun tr => !(tr.from_clip_id == cid) && !(tr.to_clip_id == cid)) }

/-- Modelled from the spec: the DELETE track route only issues a
single-row DELETE; the cascade removing the clips of the track, the
trims of those clips and the transitions owned by the track or touching
a removed clip lives in the relational schema (DDL outside src),
specified by the ownership graph. -/
def delete_track (db : Database) (tid : Nat) : Except ApiError Database :=
  if (db.tracks.find? (fun t => t.id == tid)).isNone then .error .notFound
  else
    let deadClipIds := (db.clips.filter (fun c => c.track_id == tid)).map (fun c => c.id)
    .ok { db with
      tracks := db.tracks.filter (fun t => !(t.id == tid))
      clips := db.clips.filter (fun c => !(c.track_id == tid))
      trims := db.trims.filter (fun r => !(deadClipIds.contains r.clip_id))
      transitions := db.transitions.filter
        (fun tr => !(tr.track_id == tid) && !(deadClipIds.contains tr.from_clip_id) &&
          !(deadClipIds.contains tr.to_clip_id)) }

/-- Modelled from the spec: the DELETE project route only issues a
single-row DELETE; the cascade removing every entity beneath the
project in the ownership graph lives in the relational schema (DDL
outside src). -/
def delete_project (db : Database) (pid : Nat) : Except ApiError Database :=
  if (db.projects.find? (fun t => t.id == pid)).isNone then .error .notFound
  else
    let deadClipIds := (db.clips.filter (fun c => c.project_id == pid)).map (fun c => c.id)
    let deadJobIds := (db.export_jobs.filter (fun j => j.project_id == pid)).map (fun j => j.id)
    .ok { db with
      projects := db.projects.filter (fun t => !(t.id == pid))
      media_assets := db.media_assets.filter (fun m => !(m.project_id == pid))
      tracks := db.tracks.filter (fun t => !(t.project_id == pid))
      clips := db.clips.filter (fun c => !(c.project_id == pid))
      trims := db.trims.filter (fun r => !(deadClipIds.contains r.clip_id))
      transitions := db.transitions.filter (fun tr => !(tr.project_id == pid))
      export_jobs := db.export_jobs.filter (fun j => !(j.project_id == pid))
      export_job_events := db.export_job_events.filter
        (fun e => !(deadJobIds.contains e.export_job_id)) }

/-- The ORDER BY key of the clip listing route: start_ms ascending,
created_at ascending as the tie break. -/
def clipLe (a b : ClipRow) : Prop :=
  a.start_ms < b.start_ms ∨ (a.start_ms = b.start_ms ∧ a.created_at ≤ b.created_at)

instance : DecidableRel clipLe := fun a b => by
  unfold clipLe; exact inferInstance

instance : IsTotal ClipRow clipLe :=
  ⟨by intro a b; unfold clipLe; omega⟩

instance : IsTrans ClipRow clipLe :=
  ⟨by intro a b c; unfold clipLe; omega⟩

/-- Embedding of the clip listing route of routes.py: the clips of a
project ordered by start_ms then created_at. -/
def list_clips (db : Database) (pid : Nat) : List ClipRow :=
  List.insertionSort clipLe (db.clips.filter (fun c => c.project_id == pid))

/- ==================== Concrete instances for evaluation ==================== -/

/-- A per-job ledger state whose job is currently running. -/
def runningState : ExportState :=
  ⟨"job-1", ⟨.running, 5000, none, none, some 3, none⟩, [], 1, 40⟩

/-- A per-job ledger state whose job already succeeded. -/
def succeededState : ExportState :=
  ⟨"job-2", ⟨.succeeded, 10000, some "exports/job-2.mp4", none, some 3, some 9⟩, [], 10, 50⟩

/-- A sample project row. -/
def demoProject : ProjectRow := ⟨1, "Demo", some "about", 1920, 1080, 30000, 0, 1, 1⟩

/-- A one-project store. -/
def demoProjectStore : List ProjectRow := [demoProject]

/-- A project payload setting only the name. -/
def demoProjectNamePatch : ProjectPatch := { name := some "Demo2" }

/-- The sample project after the name-only patch. -/
def demoProject2 : ProjectRow := applyProjectPatch demoProject demoProjectNamePatch

/-- The one-project store after the name-only patch. -/
def demoProjectStore2 : List ProjectRow := [demoProject2]

/-- A sample track row. -/
def demoTrack : TrackRow := ⟨1, 1, .video, "V1", 0, false, false, 10⟩

/-- A one-track store. -/
def demoTrackStore : List TrackRow := [demoTrack]

/-- A track payload setting only the name. -/
def demoNamePatch : TrackPatch := { name := some "Renamed" }

/-- The sample track after the name-only patch. -/
def demoTrack2 : TrackRow := applyTrackPatch demoTrack demoNamePatch

/-- The one-track store after the name-only patch. -/
def demoTrackStore2 : List TrackRow := [demoTrack2]

/-- A clip with start 1000 created later. -/
def demoClipA : ClipRow := ⟨1, 1, 1, none, .media, none, 1000, 2000, 0, 0, 1000, 100, 100, "", 5⟩

/-- A clip with the same start created earlier. -/
def demoClipB : ClipRow := ⟨2, 1, 1, none, .media, none, 1000, 2000, 0, 0, 1000, 100, 100, "", 3⟩

/-- A one-clip store. -/
def demoClipStore : List ClipRow := [demoClipA]

/-- A clip bound to a media asset. -/
def demoClipM : ClipRow := ⟨3, 1, 1, some 7, .media, none, 0, 100, 0, 0, 1000, 100, 100, "", 4⟩

/-- A one-clip store whose clip has a media binding. -/
def demoClipMStore : List ClipRow := [demoClipM]

/-- A clip payload setting only the name. -/
def demoClipNamePatch : ClipPatch := { name := some "c" }

/-- The media-bound clip after the name-only patch. -/
def demoClipM2 : ClipRow := applyClipPatch demoClipM demoClipNamePatch

/-- The one-clip store after the name-only patch. -/
def demoClipMStore2 : List ClipRow := [demoClipM2]

/-- A sample transition between clips 1 and 2. -/
def demoTransition : TransitionRow := ⟨1, 1, 1, 1, 2, "crossfade", 1000, "linear", "", 6⟩

/-- A one-transition store. -/
def demoTransitionStore : List TransitionRow := [demoTransition]

/-- A database with two clips of equal start inserted in reverse
creation order, for the ordering scenario. -/
def clipsDb : Database := ⟨[demoProject], [], [demoTrack], [demoClipA, demoClipB], [], [], [], []⟩

/-- A database exercising every ownership edge: a project owning a
media asset, a track with two clips, a trim on clip 1, a transition
from clip 1 to clip 2, an export job and one of its events. -/
def cascadeDb : Database :=
  ⟨[demoProject], [⟨1, 1, .video, "u", 1⟩], [demoTrack],
    [⟨1, 1, 1, none, .media, none, 0, 100, 0, 0, 1000, 100, 100, "", 2⟩,
      ⟨2, 1, 1, none, .media, none, 100, 200, 0, 0, 1000, 100, 100, "", 3⟩],
    [⟨1, 1, .kindIn, some 5, none, 4⟩], [demoTransition], [⟨1, 1⟩], [⟨1, 1⟩]⟩

/-- A transition payload setting only the easing. -/
def demoTransitionPatch : TransitionPatch := { easing := some "ease" }

/-- The sample transition after the easing-only patch. -/
def demoTransition2 : TransitionRow := applyTransitionPatch demoTransition demoTransitionPatch

/-- The one-transition store after the easing-only patch. -/
def demoTransitionStore2 : List TransitionRow := [demoTransition2]

/-- The cascade database after deleting clip 1. -/
def cascadeDbAfterClip : Database :=
  ⟨[demoProject], [⟨1, 1, .video, "u", 1⟩], [demoTrack],
    [⟨2, 1, 1, none, .media, none, 100, 200, 0, 0, 1000, 100, 100, "", 3⟩],
    [], [], [⟨1, 1⟩], [⟨1, 1⟩]⟩

/-- The cascade database after deleting track 1. -/
def cascadeDbAfterTrack : Database :=
  ⟨[demoProject], [⟨1, 1, .video, "u", 1⟩], [], [], [], [], [⟨1, 1⟩], [⟨1, 1⟩]⟩

/-- The cascade database after deleting project 1. -/
def cascadeDbAfterProject : Database := ⟨[], [], [], [], [], [], [], []⟩

end VideoEditor

namespace VideoEditor

/- ==================== Theorems ==================== -/

/-- Helper: the events written for one job by creation followed by the
single worker run dispatched for it are already in the order of the
listing key, created_at then id. -/
theorem fullExportRun_events_sorted (jid : String) (c0 : Nat) :
    List.Sorted eventLe (fullExportRun jid c0).events := by
  norm_num [fullExportRun, create_export_job, run_export_job_stub, phaseFinished, phaseQueued,
    phaseStarted, progressStep, update_job, insert_event, sleepTick, exportPcts,
    JobPatch.isEmpty, applyJobPatch, setOpt, List.Sorted, List.pairwise_cons, eventLe]

/-- C1 counterexample: on a job that is running (not queued) the worker
does not fail and does not leave the ledger unchanged; it mutates the
job row and appends eight events. -/
theorem c1_counterexample :
    runningState.job.status ≠ ExportStatus.queued ∧
    run_export_job_stub runningState ≠ runningState ∧
    (run_export_job_stub runningState).job ≠ runningState.job ∧
    (run_export_job_stub runningState).events.length = runningState.events.length + 8 := by
  decide

/-- C1 amended: run_export_job_stub checks no precondition and raises no
error: started on a job in any non-queued state it still proceeds, first
resetting the row to queued at progress 0, then driving it to succeeded
and appending eight events. -/
theorem c1_worker_runs_unconditionally (s : ExportState)
    (h : s.job.status ≠ ExportStatus.queued) :
    (phaseQueued s).job.status = ExportStatus.queued ∧
    (phaseQueued s).job.progress = 0 ∧
    (run_export_job_stub s).job.status = ExportStatus.succeeded ∧
    (run_export_job_stub s).events.length = s.events.length + 8 := by
  norm_num [run_export_job_stub, phaseFinished, phaseQueued, phaseStarted, progressStep,
    update_job, insert_event, sleepTick, exportPcts, JobPatch.isEmpty, applyJobPatch, setOpt]

/-- Witness for the amended C1 theorem at the running sample state. -/
theorem c1_witness :
    runningState.job.status ≠ ExportStatus.queued ∧
    ((phaseQueued runningState).job.status = ExportStatus.queued ∧
      (phaseQueued runningState).job.progress = 0 ∧
      (run_export_job_stub runningState).job.status = ExportStatus.succeeded ∧
      (run_export_job_stub runningState).events.length = runningState.events.length + 8) :=
  ⟨by decide, c1_worker_runs_unconditionally runningState (by decide)⟩

/-- C2 counterexample: a later worker run on a job already in the
terminal state succeeded changes the job row (its timestamps and,
transiently, its status and progress) and appends events. -/
theorem c2_counterexample :
    succeededState.job.status.isTerminal = true ∧
    (run_export_job_stub succeededState).job ≠ succeededState.job ∧
    (run_export_job_stub succeededState).job.started_at ≠ succeededState.job.started_at ∧
    (run_export_job_stub succeededState).events ≠ succeededState.events := by
  decide

/-- C2 amended: the code does not enforce finality of terminal states:
nothing guards the job row, so a later worker run on a terminal job
overwrites started_at with the later clock, overwrites finished_at
twenty ticks later, drives status through the machine again and appends
eight more events. -/
theorem c2_terminal_not_final (s : ExportState)
    (h : s.job.status.isTerminal = true) :
    (run_export_job_stub s).job.started_at = some s.clock ∧
    (run_export_job_stub s).job.finished_at = some (s.clock + 20) ∧
    (run_export_job_stub s).job.status = ExportStatus.succeeded ∧
    (run_export_job_stub s).events.length = s.events.length + 8 := by
  norm_num [run_export_job_stub, phaseFinished, phaseQueued, phaseStarted, progressStep,
    update_job, insert_event, sleepTick, exportPcts, JobPatch.isEmpty, applyJobPatch, setOpt]

/-- Witness for the amended C2 theorem at the succeeded sample state. -/
theorem c2_witness :
    succeededState.job.status.isTerminal = true ∧
    ((run_export_job_stub succeededState).job.started_at = some succeededState.clock ∧
      (run_export_job_stub succeededState).job.finished_at = some (succeededState.clock + 20) ∧
      (run_export_job_stub succeededState).job.status = ExportStatus.succeeded ∧
      (run_export_job_stub succeededState).events.length = succeededState.events.length + 8) :=
  ⟨by decide, c2_terminal_not_final succeededState (by decide)⟩

/-- C3 counterexample: a fresh creation plus the full worker run appends
nine events, not seven. -/
theorem c3_counterexample :
    (fullExportRun "demo" 0).events.length = 9 ∧
    (fullExportRun "demo" 0).events.length ≠ 7 := by
  decide

/-- C3 amended: for a freshly created export job driven by the reference
worker the status passes through queued, running, succeeded; across
creation plus the whole run exactly nine events are appended, namely
created, queued, started, five progress events and completed, whose
progress snapshots are 0.00, 0.00, 0.00, 10.00, 25.00, 50.00, 75.00,
100.00, 100.00; and the final output_uri is the deterministic path
exports/, job id, .mp4. -/
theorem c3_full_run (jid : String) (c0 : Nat) :
    (create_export_job jid c0).job.status = ExportStatus.queued ∧
    (create_export_job jid c0).job.progress = 0 ∧
    (phaseQueued (create_export_job jid c0)).job.status = ExportStatus.queued ∧
    (phaseStarted (create_export_job jid c0).clock
      (phaseQueued (create_export_job jid c0))).job.status = ExportStatus.running ∧
    (fullExportRun jid c0).job.status = ExportStatus.succeeded ∧
    (fullExportRun jid c0).events.map (fun e => e.event_type)
      = [.created, .queued, .started, .progress, .progress, .progress, .progress,
          .progress, .completed] ∧
    (fullExportRun jid c0).events.map (fun e => e.progress)
      = [some 0, some 0, some 0, some 1000, some 2500, some 5000, some 7500,
          some 10000, some 10000] ∧
    (fullExportRun jid c0).job.output_uri = some ("exports/" ++ jid ++ ".mp4") ∧
    (fullExportRun jid c0).job.progress = 10000 := by
  norm_num [fullExportRun, create_export_job, run_export_job_stub, phaseFinished, phaseQueued,
    phaseStarted, progressStep, update_job, insert_event, sleepTick, exportPcts,
    JobPatch.isEmpty, applyJobPatch, setOpt]

/-- C4: each progress update of the worker loop is non-decreasing with
respect to the progress the row holds just before it, writes exactly the
scheduled value to the row, and appends a progress event carrying the
same value, so the row and the latest event agree afterwards. -/
theorem c4_progress_update_contract (s : ExportState) (i : Nat)
    (h : i < exportPcts.length) :
    (loopState s i).job.progress ≤ exportPcts.getD i 0 ∧
    loopState s (i + 1) = progressStep (loopState s i) (exportPcts.getD i 0) ∧
    (loopState s (i + 1)).job.progress = exportPcts.getD i 0 ∧
    ((loopState s (i + 1)).events.getLast?.map (fun e => (e.event_type, e.progress)))
      = some (EventType.progress, some ((loopState s (i + 1)).job.progress)) := by
  simp only [exportPcts, List.length_cons, List.length_nil] at h
  interval_cases i <;>
    norm_num [loopState, exportLoopStates, List.scanl, exportPcts, progressStep, phaseStarted,
      phaseQueued, update_job, insert_event, sleepTick, JobPatch.isEmpty, applyJobPatch, setOpt]

/-- Witness for C4 at the first loop iteration of a run started from the
running sample state. -/
theorem c4_witness :
    0 < exportPcts.length ∧
    ((loopState runningState 0).job.progress ≤ exportPcts.getD 0 0 ∧
      loopState runningState (0 + 1) = progressStep (loopState runningState 0) (exportPcts.getD 0 0) ∧
      (loopState runningState (0 + 1)).job.progress = exportPcts.getD 0 0 ∧
      ((loopState runningState (0 + 1)).events.getLast?.map (fun e => (e.event_type, e.progress)))
        = some (EventType.progress, some ((loopState runningState (0 + 1)).job.progress))) :=
  ⟨by decide, c4_progress_update_contract runningState 0 (by decide)⟩

/-- C5: for a job driven by creation plus its single worker run, the
events ordered by created_at then id are exactly created, queued,
started, five progress events and a single terminal completed event,
which is a subsequence of the lifecycle pattern with the terminal event
last. -/
theorem c5_event_sequence (jid : String) (c0 : Nat) :
    list_export_job_events (fullExportRun jid c0) = (fullExportRun jid c0).events ∧
    (list_export_job_events (fullExportRun jid c0)).map (fun e => e.event_type)
      = [.created, .queued, .started, .progress, .progress, .progress, .progress,
          .progress, .completed] ∧
    lifecycleOk ((list_export_job_events (fullExportRun jid c0)).map (fun e => e.event_type))
      = true := by
  have hs := fullExportRun_events_sorted jid c0
  have he : list_export_job_events (fullExportRun jid c0) = (fullExportRun jid c0).events :=
    hs.insertionSort_eq
  refine ⟨he, ?_, ?_⟩ <;> rw [he]
  · norm_num [fullExportRun, create_export_job, run_export_job_stub, phaseFinished, phaseQueued,
      phaseStarted, progressStep, update_job, insert_event, sleepTick, exportPcts,
      JobPatch.isEmpty, applyJobPatch, setOpt]
  · have hm : (fullExportRun jid c0).events.map (fun e => e.event_type)
        = [EventType.created, .queued, .started, .progress, .progress, .progress, .progress,
            .progress, .completed] := by
      norm_num [fullExportRun, create_export_job, run_export_job_stub, phaseFinished, phaseQueued,
        phaseStarted, progressStep, update_job, insert_event, sleepTick, exportPcts,
        JobPatch.isEmpty, applyJobPatch, setOpt]
    rw [hm]
    decide

/-- C6: every worker run ends with the job succeeded at progress 100.00,
with output_uri set in the same update as the terminal transition to the
deterministic path derived from the job id, and with finished_at no
earlier than started_at; just before that final update the job is still
running. -/
theorem c6_succeeded_contract (s : ExportState) :
    (run_export_job_stub s).job.status = ExportStatus.succeeded ∧
    (run_export_job_stub s).job.progress = 10000 ∧
    (run_export_job_stub s).job.output_uri = some ("exports/" ++ s.jobId ++ ".mp4") ∧
    (run_export_job_stub s).job.started_at = some s.clock ∧
    (run_export_job_stub s).job.finished_at = some (s.clock + 20) ∧
    s.clock ≤ s.clock + 20 ∧
    (exportPcts.foldl progressStep (phaseStarted s.clock (phaseQueued s))).job.status
      = ExportStatus.running := by
  norm_num [run_export_job_stub, phaseFinished, phaseQueued, phaseStarted, progressStep,
    update_job, insert_event, sleepTick, exportPcts, JobPatch.isEmpty, applyJobPatch, setOpt]

/-- C7: a successful partial update applies exactly the present fields
of the payload, for every update route: on tracks, projects, clips and
transitions every omitted field and every non-payload column keeps its
stored value while present fields take the new value, and no nullable
payload column (project description, clip media binding, clip name) can
be turned from a stored value into null, because an absent field is
indistinguishable from null and is skipped. -/
theorem c7_partial_update_frame :
    (∀ (store : List TrackRow) (id : Nat) (p : TrackPatch) (t t2 : TrackRow)
        (store2 : List TrackRow),
      store.find? (fun u => u.id == id) = some t →
      update_track store id p = .ok (store2, t2) →
      t2.name = p.name.getD t.name ∧ t2.sort_order = p.sort_order.getD t.sort_order ∧
      t2.muted = p.muted.getD t.muted ∧ t2.locked = p.locked.getD t.locked ∧
      t2.id = t.id ∧ t2.project_id = t.project_id ∧ t2.track_type = t.track_type ∧
      t2.created_at = t.created_at) ∧
    (∀ (store : List ProjectRow) (id : Nat) (p : ProjectPatch) (t t2 : ProjectRow)
        (store2 : List ProjectRow),
      store.find? (fun u => u.id == id) = some t →
      update_project store id p = .ok (store2, t2) →
      t2.name = p.name.getD t.name ∧
      t2.description = setOpt p.description t.description ∧
      t2.width = p.width.getD t.width ∧ t2.height = p.height.getD t.height ∧
      t2.fps = p.fps.getD t.fps ∧ t2.duration_ms = p.duration_ms.getD t.duration_ms ∧
      t2.id = t.id ∧ t2.created_at = t.created_at ∧ t2.updated_at = t.updated_at ∧
      (t.description ≠ none → t2.description ≠ none)) ∧
    (∀ (store : List ClipRow) (id : Nat) (p : ClipPatch) (t t2 : ClipRow)
        (store2 : List ClipRow),
      store.find? (fun u => u.id == id) = some t →
      update_clip store id p = .ok (store2, t2) →
      t2.track_id = p.track_id.getD t.track_id ∧
      t2.media_asset_id = setOpt p.media_asset_id t.media_asset_id ∧
      t2.name = setOpt p.name t.name ∧
      t2.start_ms = p.start_ms.getD t.start_ms ∧ t2.end_ms = p.end_ms.getD t.end_ms ∧
      t2.in_ms = p.in_ms.getD t.in_ms ∧ t2.out_ms = p.out_ms.getD t.out_ms ∧
      t2.speed = p.speed.getD t.speed ∧ t2.opacity = p.opacity.getD t.opacity ∧
      t2.volume = p.volume.getD t.volume ∧ t2.transform = p.transform.getD t.transform ∧
      t2.id = t.id ∧ t2.project_id = t.project_id ∧ t2.clip_type = t.clip_type ∧
      t2.created_at = t.created_at ∧
      (t.media_asset_id ≠ none → t2.media_asset_id ≠ none) ∧
      (t.name ≠ none → t2.name ≠ none)) ∧
    (∀ (store : List TransitionRow) (id : Nat) (p : TransitionPatch)
        (t t2 : TransitionRow) (store2 : List TransitionRow),
      store.find? (fun u => u.id == id) = some t →
      update_transition store id p = .ok (store2, t2) →
      t2.transition_type = p.transition_type.getD t.transition_type ∧
      t2.duration_ms = p.duration_ms.getD t.duration_ms ∧
      t2.easing = p.easing.getD t.easing ∧ t2.params = p.params.getD t.params ∧
      t2.id = t.id ∧ t2.project_id = t.project_id ∧ t2.track_id = t.track_id ∧
      t2.from_clip_id = t.from_clip_id ∧ t2.to_clip_id = t.to_clip_id ∧
      t2.created_at = t.created_at) := by
  refine ⟨?_, ?_, ?_, ?_⟩
  · intro store id p t t2 store2 hfind hupd
    unfold update_track at hupd
    cases hE : p.isEmpty with
    | true =>
      rw [hE] at hupd
      simp only [if_true, hfind] at hupd
      obtain ⟨rfl, rfl⟩ := hupd
      simp only [TrackPatch.isEmpty, Bool.and_eq_true, Option.isNone_iff_eq_none] at hE
      obtain ⟨⟨⟨h1, h2⟩, h3⟩, h4⟩ := hE
      simp [h1, h2, h3, h4]
    | false =>
      rw [hE] at hupd
      simp only [Bool.false_eq_true, if_false, hfind] at hupd
      obtain ⟨rfl, rfl⟩ := hupd
      simp [applyTrackPatch]
  · intro store id p t t2 store2 hfind hupd
    unfold update_project at hupd
    cases hE : p.isEmpty with
    | true =>
      rw [hE] at hupd
      simp only [if_true, hfind] at hupd
      obtain ⟨rfl, rfl⟩ := hupd
      simp only [ProjectPatch.isEmpty, Bool.and_eq_true, Option.isNone_iff_eq_none] at hE
      obtain ⟨⟨⟨⟨⟨h1, h2⟩, h3⟩, h4⟩, h5⟩, h6⟩ := hE
      simp [h1, h2, h3, h4, h5, h6, setOpt]
    | false =>
      rw [hE] at hupd
      simp only [Bool.false_eq_true, if_false, hfind] at hupd
      obtain ⟨rfl, rfl⟩ := hupd
      refine ⟨rfl, rfl, rfl, rfl, rfl, rfl, rfl, rfl, rfl, ?_⟩
      intro hd
      simp only [applyProjectPatch]
      cases hD : p.description <;> simp [setOpt, hD, hd]
  · intro store id p t t2 store2 hfind hupd
    unfold update_clip at hupd
    cases hE : p.isEmpty with
    | true =>
      rw [hE] at hupd
      simp only [if_true, hfind] at hupd
      obtain ⟨rfl, rfl⟩ := hupd
      simp only [ClipPatch.isEmpty, Bool.and_eq_true, Option.isNone_iff_eq_none] at hE
      obtain ⟨⟨⟨⟨⟨⟨⟨⟨⟨⟨h1, h2⟩, h3⟩, h4⟩, h5⟩, h6⟩, h7⟩, h8⟩, h9⟩, h10⟩, h11⟩ := hE
      simp [h1, h2, h3, h4, h5, h6, h7, h8, h9, h10, h11, setOpt]
    | false =>
      rw [hE] at hupd
      simp only [Bool.false_eq_true, if_false, hfind] at hupd
      obtain ⟨rfl, rfl⟩ := hupd
      refine ⟨rfl, rfl, rfl, rfl, rfl, rfl, rfl, rfl, rfl, rfl, rfl, rfl, rfl, rfl, rfl,
        ?_, ?_⟩
      · intro hm
        simp only [applyClipPatch]
        cases hM : p.media_asset_id <;> simp [setOpt, hM, hm]
      · intro hn
        simp only [applyClipPatch]
        cases hN : p.name <;> simp [setOpt, hN, hn]
  · intro store id p t t2 store2 hfind hupd
    unfold update_transition at hupd
    cases hE : p.isEmpty with
    | true =>
      rw [hE] at hupd
      simp only [if_true, hfind] at hupd
      obtain ⟨rfl, rfl⟩ := hupd
      simp only [TransitionPatch.isEmpty, Bool.and_eq_true, Option.isNone_iff_eq_none] at hE
      obtain ⟨⟨⟨h1, h2⟩, h3⟩, h4⟩ := hE
      simp [h1, h2, h3, h4]
    | false =>
      rw [hE] at hupd
      simp only [Bool.false_eq_true, if_false, hfind] at hupd
      obtain ⟨rfl, rfl⟩ := hupd
      simp [applyTransitionPatch]

/-- Witness for C7 at the sample stores, applying all four parts. -/
theorem c7_witness :
    (demoTrackStore.find? (fun u => u.id == 1) = some demoTrack ∧
      update_track demoTrackStore 1 demoNamePatch = .ok (demoTrackStore2, demoTrack2) ∧
      demoProjectStore.find? (fun u => u.id == 1) = some demoProject ∧
      update_project demoProjectStore 1 demoProjectNamePatch
        = .ok (demoProjectStore2, demoProject2) ∧
      demoClipMStore.find? (fun u => u.id == 3) = some demoClipM ∧
      update_clip demoClipMStore 3 demoClipNamePatch = .ok (demoClipMStore2, demoClipM2) ∧
      demoTransitionStore.find? (fun u => u.id == 1) = some demoTransition ∧
      update_transition demoTransitionStore 1 demoTransitionPatch
        = .ok (demoTransitionStore2, demoTransition2)) ∧
    (demoTrack2.name = demoNamePatch.name.getD demoTrack.name ∧
      demoTrack2.sort_order = demoNamePatch.sort_order.getD demoTrack.sort_order ∧
      demoTrack2.muted = demoNamePatch.muted.getD demoTrack.muted ∧
      demoTrack2.locked = demoNamePatch.locked.getD demoTrack.locked ∧
      demoTrack2.id = demoTrack.id ∧ demoTrack2.project_id = demoTrack.project_id ∧
      demoTrack2.track_type = demoTrack.track_type ∧
      demoTrack2.created_at = demoTrack.created_at) ∧
    (demoProject2.name = demoProjectNamePatch.name.getD demoProject.name ∧
      demoProject2.description = setOpt demoProjectNamePatch.description demoProject.description ∧
      demoProject2.width = demoProjectNamePatch.width.getD demoProject.width ∧
      demoProject2.height = demoProjectNamePatch.height.getD demoProject.height ∧
      demoProject2.fps = demoProjectNamePatch.fps.getD demoProject.fps ∧
      demoProject2.duration_ms = demoProjectNamePatch.duration_ms.getD demoProject.duration_ms ∧
      demoProject2.id = demoProject.id ∧ demoProject2.created_at = demoProject.created_at ∧
      demoProject2.updated_at = demoProject.updated_at ∧
      (demoProject.description ≠ none → demoProject2.description ≠ none)) ∧
    (demoClipM2.track_id = demoClipNamePatch.track_id.getD demoClipM.track_id ∧
      demoClipM2.media_asset_id = setOpt demoClipNamePatch.media_asset_id demoClipM.media_asset_id ∧
      demoClipM2.name = setOpt demoClipNamePatch.name demoClipM.name ∧
      demoClipM2.start_ms = demoClipNamePatch.start_ms.getD demoClipM.start_ms ∧
      demoClipM2.end_ms = demoClipNamePatch.end_ms.getD demoClipM.end_ms ∧
      demoClipM2.in_ms = demoClipNamePatch.in_ms.getD demoClipM.in_ms ∧
      demoClipM2.out_ms = demoClipNamePatch.out_ms.getD demoClipM.out_ms ∧
      demoClipM2.speed = demoClipNamePatch.speed.getD demoClipM.speed ∧
      demoClipM2.opacity = demoClipNamePatch.opacity.getD demoClipM.opacity ∧
      demoClipM2.volume = demoClipNamePatch.volume.getD demoClipM.volume ∧
      demoClipM2.transform = demoClipNamePatch.transform.getD demoClipM.transform ∧
      demoClipM2.id = demoClipM.id ∧ demoClipM2.project_id = demoClipM.project_id ∧
      demoClipM2.clip_type = demoClipM.clip_type ∧
      demoClipM2.created_at = demoClipM.created_at ∧
      (demoClipM.media_asset_id ≠ none → demoClipM2.media_asset_id ≠ none) ∧
      (demoClipM.name ≠ none → demoClipM2.name ≠ none)) ∧
    (demoTransition2.transition_type
        = demoTransitionPatch.transition_type.getD demoTransition.transition_type ∧
      demoTransition2.duration_ms = demoTransitionPatch.duration_ms.getD demoTransition.duration_ms ∧
      demoTransition2.easing = demoTransitionPatch.easing.getD demoTransition.easing ∧
      demoTransition2.params = demoTransitionPatch.params.getD demoTransition.params ∧
      demoTransition2.id = demoTransition.id ∧
      demoTransition2.project_id = demoTransition.project_id ∧
      demoTransition2.track_id = demoTransition.track_id ∧
      demoTransition2.from_clip_id = demoTransition.from_clip_id ∧
      demoTransition2.to_clip_id = demoTransition.to_clip_id ∧
      demoTransition2.created_at = demoTransition.created_at) :=
  ⟨⟨by decide, by rfl, by decide, by rfl, by decide, by rfl, by decide, by rfl⟩,
    c7_partial_update_frame.1 demoTrackStore 1 demoNamePatch demoTrack demoTrack2
      demoTrackStore2 (by decide) (by rfl),
    c7_partial_update_frame.2.1 demoProjectStore 1 demoProjectNamePatch demoProject
      demoProject2 demoProjectStore2 (by decide) (by rfl),
    c7_partial_update_frame.2.2.1 demoClipMStore 3 demoClipNamePatch demoClipM
      demoClipM2 demoClipMStore2 (by decide) (by rfl),
    c7_partial_update_frame.2.2.2 demoTransitionStore 1 demoTransitionPatch demoTransition
      demoTransition2 demoTransitionStore2 (by decide) (by rfl)⟩

/-- C8: a successful clip delete leaves no transition having the clip as
either endpoint, and none of its trims; a successful track delete leaves
no track, clip, or transition of the track and no trim of any of its
clips; a successful project delete leaves no entity of the project in
any table, including trims of its clips and events of its export
jobs. -/
theorem c8_cascade_deletes :
    (∀ (db : Database) (cid : Nat) (db2 : Database),
      delete_clip db cid = .ok db2 →
      (∀ tr ∈ db2.transitions, tr.from_clip_id ≠ cid ∧ tr.to_clip_id ≠ cid) ∧
      (∀ c ∈ db2.clips, c.id ≠ cid) ∧
      (∀ r ∈ db2.trims, r.clip_id ≠ cid)) ∧
    (∀ (db : Database) (tid : Nat) (db2 : Database),
      delete_track db tid = .ok db2 →
      (∀ t ∈ db2.tracks, t.id ≠ tid) ∧
      (∀ c ∈ db2.clips, c.track_id ≠ tid) ∧
      (∀ tr ∈ db2.transitions, tr.track_id ≠ tid) ∧
      (∀ r ∈ db2.trims, ∀ c ∈ db.clips, c.id = r.clip_id → c.track_id ≠ tid)) ∧
    (∀ (db : Database) (pid : Nat) (db2 : Database),
      delete_project db pid = .ok db2 →
      (∀ pr ∈ db2.projects, pr.id ≠ pid) ∧
      (∀ m ∈ db2.media_assets, m.project_id ≠ pid) ∧
      (∀ t ∈ db2.tracks, t.project_id ≠ pid) ∧
      (∀ c ∈ db2.clips, c.project_id ≠ pid) ∧
      (∀ tr ∈ db2.transitions, tr.project_id ≠ pid) ∧
      (∀ j ∈ db2.export_jobs, j.project_id ≠ pid) ∧
      (∀ r ∈ db2.trims, ∀ c ∈ db.clips, c.id = r.clip_id → c.project_id ≠ pid) ∧
      (∀ e ∈ db2.export_job_events, ∀ j ∈ db.export_jobs,
        j.id = e.export_job_id → j.project_id ≠ pid)) := by
  refine ⟨?_, ?_, ?_⟩
  · intro db cid db2 h
    unfold delete_clip at h
    by_cases hf : (db.clips.find? (fun c => c.id == cid)).isNone
    · simp [hf] at h
    · simp only [hf, Bool.false_eq_true, if_false, Except.ok.injEq] at h
      subst h
      refine ⟨?_, ?_, ?_⟩ <;> intro x hx <;> simp [List.mem_filter] at hx <;> tauto
  · intro db tid db2 h
    unfold delete_track at h
    by_cases hf : (db.tracks.find? (fun t => t.id == tid)).isNone
    · simp [hf] at h
    · simp only [hf, Bool.false_eq_true, if_false, Except.ok.injEq] at h
      subst h
      refine ⟨?_, ?_, ?_, ?_⟩
      · intro x hx; simp [List.mem_filter] at hx; tauto
      · intro x hx; simp [List.mem_filter] at hx; tauto
      · intro x hx; simp [List.mem_filter] at hx; tauto
      · intro r hr c hc hid htid
        simp only [List.mem_filter, Bool.not_eq_true', List.elem_eq_mem,
          decide_eq_false_iff_not] at hr
        exact hr.2 (List.mem_map.mpr ⟨c, List.mem_filter.mpr ⟨hc, by simp [htid]⟩, hid⟩)
  · intro db pid db2 h
    unfold delete_project at h
    by_cases hf : (db.projects.find? (fun t => t.id == pid)).isNone
    · simp [hf] at h
    · simp only [hf, Bool.false_eq_true, if_false, Except.ok.injEq] at h
      subst h
      refine ⟨?_, ?_, ?_, ?_, ?_, ?_, ?_, ?_⟩
      · intro x hx; simp [List.mem_filter] at hx; tauto
      · intro x hx; simp [List.mem_filter] at hx; tauto
      · intro x hx; simp [List.mem_filter] at hx; tauto
      · intro x hx; simp [List.mem_filter] at hx; tauto
      · intro x hx; simp [List.mem_filter] at hx; tauto
      · intro x hx; simp [List.mem_filter] at hx; tauto
      · intro r hr c hc hid hpid
        simp only [List.mem_filter, Bool.not_eq_true', List.elem_eq_mem,
          decide_eq_false_iff_not] at hr
        exact hr.2 (List.mem_map.mpr ⟨c, List.mem_filter.mpr ⟨hc, by simp [hpid]⟩, hid⟩)
      · intro e he j hj hid hpid
        simp only [List.mem_filter, Bool.not_eq_true', List.elem_eq_mem,
          decide_eq_false_iff_not] at he
        exact he.2 (List.mem_map.mpr ⟨j, List.mem_filter.mpr ⟨hj, by simp [hpid]⟩, hid⟩)

/-- Witness for C8 at the sample cascade database, spec-modelled (the
cascade edges are in the relational schema, not in src), applying all
three parts. -/
theorem c8_witness :
    (delete_clip cascadeDb 1 = .ok cascadeDbAfterClip ∧
      delete_track cascadeDb 1 = .ok cascadeDbAfterTrack ∧
      delete_project cascadeDb 1 = .ok cascadeDbAfterProject) ∧
    (∀ tr ∈ cascadeDbAfterClip.transitions, tr.from_clip_id ≠ 1 ∧ tr.to_clip_id ≠ 1) ∧
    (∀ c ∈ cascadeDbAfterTrack.clips, c.track_id ≠ 1) ∧
    (∀ pr ∈ cascadeDbAfterProject.projects, pr.id ≠ 1) :=
  ⟨⟨by rfl, by rfl, by rfl⟩,
    ((c8_cascade_deletes.1 cascadeDb 1 cascadeDbAfterClip (by rfl)).1),
    ((c8_cascade_deletes.2.1 cascadeDb 1 cascadeDbAfterTrack (by rfl)).2.1),
    ((c8_cascade_deletes.2.2 cascadeDb 1 cascadeDbAfterProject (by rfl)).1)⟩

/-- C9: the clip listing of a project contains exactly the clips of the
project and is sorted by the listing key, start_ms ascending with
created_at ascending as tie break: along the returned list start_ms is
non-decreasing, and of two listed clips with equal start_ms the one
created earlier appears first. -/
theorem c9_list_clips_ordered (db : Database) (pid : Nat) :
    (∀ c, c ∈ list_clips db pid ↔ (c ∈ db.clips ∧ c.project_id = pid)) ∧
    List.Sorted clipLe (list_clips db pid) ∧
    (∀ (i j : Nat) (c1 c2 : ClipRow), i < j →
      (list_clips db pid)[i]? = some c1 → (list_clips db pid)[j]? = some c2 →
      c1.start_ms ≤ c2.start_ms) ∧
    (∀ (i j : Nat) (c1 c2 : ClipRow), i < j →
      (list_clips db pid)[i]? = some c1 → (list_clips db pid)[j]? = some c2 →
      c1.start_ms = c2.start_ms → c1.created_at ≤ c2.created_at) := by
  refine ⟨?_, List.sorted_insertionSort clipLe _, ?_, ?_⟩
  · intro c
    simp [list_clips, List.mem_filter]
  · intro i j c1 c2 hij h1 h2
    have hsorted : List.Sorted clipLe (list_clips db pid) :=
      List.sorted_insertionSort clipLe _
    obtain ⟨hi, hg1⟩ := List.getElem?_eq_some.mp h1
    obtain ⟨hj, hg2⟩ := List.getElem?_eq_some.mp h2
    have hrel : clipLe ((list_clips db pid).get ⟨i, hi⟩) ((list_clips db pid).get ⟨j, hj⟩) :=
      hsorted.rel_get_of_lt (by exact hij)
    simp only [List.get_eq_getElem, hg1, hg2] at hrel
    rcases hrel with hlt | ⟨heq, -⟩
    · omega
    · omega
  · intro i j c1 c2 hij h1 h2 hs
    have hsorted : List.Sorted clipLe (list_clips db pid) :=
      List.sorted_insertionSort clipLe _
    obtain ⟨hi, hg1⟩ := List.getElem?_eq_some.mp h1
    obtain ⟨hj, hg2⟩ := List.getElem?_eq_some.mp h2
    have hrel : clipLe ((list_clips db pid).get ⟨i, hi⟩) ((list_clips db pid).get ⟨j, hj⟩) :=
      hsorted.rel_get_of_lt (by exact hij)
    simp only [List.get_eq_getElem, hg1, hg2] at hrel
    rcases hrel with hlt | ⟨-, hle⟩
    · omega
    · exact hle

/-- Witness for C9: two clips with start 1000 inserted in reverse
creation order come back with non-decreasing start and in creation
order. -/
theorem c9_witness :
    ((0 : Nat) < 1 ∧ (list_clips clipsDb 1)[0]? = some demoClipB ∧
      (list_clips clipsDb 1)[1]? = some demoClipA ∧
      demoClipB.start_ms = demoClipA.start_ms) ∧
    demoClipB.start_ms ≤ demoClipA.start_ms ∧
    demoClipB.created_at ≤ demoClipA.created_at :=
  ⟨⟨by decide, by decide, by decide, by decide⟩,
    (c9_list_clips_ordered clipsDb 1).2.2.1 0 1 demoClipB demoClipA (by decide) (by decide)
      (by decide),
    (c9_list_clips_ordered clipsDb 1).2.2.2 0 1 demoClipB demoClipA (by decide) (by decide)
      (by decide) (by decide)⟩

/-- C10: every update endpoint given an all-absent payload performs no
write and returns the stored entity unchanged, and still reports not
found when the id is absent. -/
theorem c10_empty_update_noop :
    (∀ (store : List ProjectRow) (id : Nat) (t : ProjectRow),
      store.find? (fun u => u.id == id) = some t →
      update_project store id emptyProjectPatch = .ok (store, t)) ∧
    (∀ (store : List ProjectRow) (id : Nat),
      store.find? (fun u => u.id == id) = none →
      update_project store id emptyProjectPatch = .error .notFound) ∧
    (∀ (store : List TrackRow) (id : Nat) (t : TrackRow),
      store.find? (fun u => u.id == id) = some t →
      update_track store id emptyTrackPatch = .ok (store, t)) ∧
    (∀ (store : List TrackRow) (id : Nat),
      store.find? (fun u => u.id == id) = none →
      update_track store id emptyTrackPatch = .error .notFound) ∧
    (∀ (store : List ClipRow) (id : Nat) (t : ClipRow),
      store.find? (fun u => u.id == id) = some t →
      update_clip store id emptyClipPatch = .ok (store, t)) ∧
    (∀ (store : List ClipRow) (id : Nat),
      store.find? (fun u => u.id == id) = none →
      update_clip store id emptyClipPatch = .error .notFound) ∧
    (∀ (store : List TransitionRow) (id : Nat) (t : TransitionRow),
      store.find? (fun u => u.id == id) = some t →
      update_transition store id emptyTransitionPatch = .ok (store, t)) ∧
    (∀ (store : List TransitionRow) (id : Nat),
      store.find? (fun u => u.id == id) = none →
      update_transition store id emptyTransitionPatch = .error .notFound) := by
  refine ⟨?_, ?_, ?_, ?_, ?_, ?_, ?_, ?_⟩ <;> intro store id
  · intro t hfind
    simp [update_project, emptyProjectPatch, ProjectPatch.isEmpty, hfind]
  · intro hfind
    simp [update_project, emptyProjectPatch, ProjectPatch.isEmpty, hfind]
  · intro t hfind
    simp [update_track, emptyTrackPatch, TrackPatch.isEmpty, hfind]
  · intro hfind
    simp [update_track, emptyTrackPatch, TrackPatch.isEmpty, hfind]
  · intro t hfind
    simp [update_clip, emptyClipPatch, ClipPatch.isEmpty, hfind]
  · intro hfind
    simp [update_clip, emptyClipPatch, ClipPatch.isEmpty, hfind]
  · intro t hfind
    simp [update_transition, emptyTransitionPatch, TransitionPatch.isEmpty, hfind]
  · intro hfind
    simp [update_transition, emptyTransitionPatch, TransitionPatch.isEmpty, hfind]

/-- Witness for C10 applying every part at the sample stores, with id 1
present and id 99 absent. -/
theorem c10_witness :
    (demoProjectStore.find? (fun u => u.id == 1) = some demoProject ∧
      demoProjectStore.find? (fun u => u.id == 99) = none ∧
      demoTrackStore.find? (fun u => u.id == 1) = some demoTrack ∧
      demoTrackStore.find? (fun u => u.id == 99) = none ∧
      demoClipStore.find? (fun u => u.id == 1) = some demoClipA ∧
      demoClipStore.find? (fun u => u.id == 99) = none ∧
      demoTransitionStore.find? (fun u => u.id == 1) = some demoTransition ∧
      demoTransitionStore.find? (fun u => u.id == 99) = none) ∧
    (update_project demoProjectStore 1 emptyProjectPatch = .ok (demoProjectStore, demoProject) ∧
      update_project demoProjectStore 99 emptyProjectPatch = .error .notFound ∧
      update_track demoTrackStore 1 emptyTrackPatch = .ok (demoTrackStore, demoTrack) ∧
      update_track demoTrackStore 99 emptyTrackPatch = .error .notFound ∧
      update_clip demoClipStore 1 emptyClipPatch = .ok (demoClipStore, demoClipA) ∧
      update_clip demoClipStore 99 emptyClipPatch = .error .notFound ∧
      update_transition demoTransitionStore 1 emptyTransitionPatch
        = .ok (demoTransitionStore, demoTransition) ∧
      update_transition demoTransitionStore 99 emptyTransitionPatch = .error .notFound) :=
  ⟨⟨by decide, by decide, by decide, by decide, by decide, by decide, by decide, by decide⟩,
    c10_empty_update_noop.1 demoProjectStore 1 demoProject (by decide),
    c10_empty_update_noop.2.1 demoProjectStore 99 (by decide),
    c10_empty_update_noop.2.2.1 demoTrackStore 1 demoTrack (by decide),
    c10_empty_update_noop.2.2.2.1 demoTrackStore 99 (by decide),
    c10_empty_update_noop.2.2.2.2.1 demoClipStore 1 demoClipA (by decide),
    c10_empty_update_noop.2.2.2.2.2.1 demoClipStore 99 (by decide),
    c10_empty_update_noop.2.2.2.2.2.2.1 demoTransitionStore 1 demoTransition (by decide),
    c10_empty_update_noop.2.2.2.2.2.2.2 demoTransitionStore 99 (by decide)⟩

end VideoEditor
